import Mathlib

/-!
Shallow embedding of the COVAS-NEXT Media Player Plugin media controllers
(`MediaControllerTypes.py`, `MPRISController.py`, `MediaControllers.py`).

Playback-state fields in the Python code are dynamically typed: besides the
declared `str | None` / `bool | None` values, the Windows adapter can store a
raw `MediaPlaybackAutoRepeatMode` enum (via Python `x or False` truthiness
pass-through) and the MPRIS adapter can receive a numeric shuffle value from a
misbehaving player.  `PyVal` models exactly the values that can reach a field,
and `pyEq` models Python `==` on them (Python booleans compare equal to their
numeric values and `enum.IntEnum` members compare equal to their integers).
Platform calls that can raise are modelled with `Except Unit`.
-/

namespace MediaPlayer

/-- Embedding of `winrt.windows.media.MediaPlaybackAutoRepeatMode`, an `enum.IntEnum` with
members NONE = 0, TRACK = 1, LIST = 2. -/
inductive WinRepeatMode where
  | none_
  | track
  | list
deriving DecidableEq, Repr

/-- The integer value of the `MediaPlaybackAutoRepeatMode` member. -/
def WinRepeatMode.toInt : WinRepeatMode → Int
  | .none_ => 0
  | .track => 1
  | .list => 2

/-- A Python value that can be stored in a `MediaPlaybackStateInner` field. -/
inductive PyVal where
  | vnone
  | vbool (b : Bool)
  | vint (n : Int)
  | vstr (s : String)
  | venum (m : WinRepeatMode)
deriving DecidableEq, Repr

/-- The numeric value of a Python value, when it belongs to the numeric tower
(`bool` is a subtype of `int`; `enum.IntEnum` members equal their integer). -/
def PyVal.toNum : PyVal → Option Int
  | .vbool b => some (if b then 1 else 0)
  | .vint n => some n
  | .venum m => some m.toInt
  | _ => none

/-- Python `==` on the values that can reach a playback-state field:
numeric values compare by value across `bool`/`int`/`IntEnum`; `None` and
strings only compare equal to themselves. -/
def pyEq (a b : PyVal) : Bool :=
  match a.toNum, b.toNum with
  | some x, some y => x == y
  | _, _ =>
    match a, b with
    | .vnone, .vnone => true
    | .vstr s, .vstr t => s == t
    | _, _ => false

/-- Python truthiness of a field value (`bool(x)`): `None` and `0`-valued
numerics are falsy, nonzero numerics truthy, strings truthy iff nonempty. -/
def pyTruthy : PyVal → Bool
  | .vnone => false
  | .vbool b => b
  | .vint n => n != 0
  | .vstr s => s ≠ ""
  | .venum m => m.toInt != 0

/-- Embedding of `MediaPlaybackStateInner` (`MediaControllerTypes.py` lines 9-15): the
normalized playback state, a `TypedDict` with six keys. -/
structure MediaPlaybackStateInner where
  artist : PyVal
  subtitle : PyVal
  title : PyVal
  is_shuffle_active : PyVal
  auto_repeat_mode : PyVal
  playback_status : PyVal
deriving DecidableEq, Repr

/-- Embedding of `default_media_playback_state()` (`MediaControllerTypes.py` lines 17-25):
the default sentinel state. -/
def default_media_playback_state : MediaPlaybackStateInner :=
  { artist := .vnone
    subtitle := .vnone
    title := .vnone
    is_shuffle_active := .vbool false
    auto_repeat_mode := .vbool false
    playback_status := .vnone }

/-- Python `==` on two playback-state dicts: same keys, values compared with
Python `==`. -/
def pyEqState (a b : MediaPlaybackStateInner) : Bool :=
  pyEq a.artist b.artist && pyEq a.subtitle b.subtitle && pyEq a.title b.title
    && pyEq a.is_shuffle_active b.is_shuffle_active
    && pyEq a.auto_repeat_mode b.auto_repeat_mode
    && pyEq a.playback_status b.playback_status

/-- Python `==` between a cached value that may still be its initial
non-state sentinel (`None` in `MPRISController`, a stray `dataclasses.Field`
object in `WindowsMediaController`) and a freshly read state.  A dict never
compares equal to either sentinel, so `none` compares unequal to every
state. -/
def pyEqOptState : Option MediaPlaybackStateInner → MediaPlaybackStateInner → Bool
  | none, _ => false
  | some a, b => pyEqState a b

/-! ## MPRIS adapter (`MPRISController.py`)

The D-Bus platform boundary is modelled by records of the answers the
platform gives to each call the controller makes; a call that raises is an
`Except.error`. -/

instance {ε : Type u} {α : Type v} [DecidableEq ε] [DecidableEq α] :
    DecidableEq (Except ε α) := fun a b =>
  match a, b with
  | .error x, .error y => decidable_of_iff (x = y) (by simp)
  | .error _, .ok _ => isFalse (fun h => by cases h)
  | .ok _, .error _ => isFalse (fun h => by cases h)
  | .ok x, .ok y => decidable_of_iff (x = y) (by simp)

/-- The `xesam:` entries of the MPRIS `Metadata` property, after the
`(metadata.get(key) or \x7b"value": None\x7d).value` unwrapping on lines
119, 126-127 of `MPRISController.py`: an absent key and a `None`-valued
variant both collapse to `none`. -/
structure MPRISMetadata where
  artist : Option (List String)
  album : Option String
  title : Option String
deriving DecidableEq, Repr

/-- The answers the chosen MPRIS player interface gives to one round of
property reads (`MPRISController._get_media_playback_state`).  `has_*` model
the `hasattr` probes; the `shuffle` value is a raw `PyVal` because a player
misdeclaring the property's wire type can deliver a numeric value. -/
structure MPRISIfaceData where
  metadata : Except Unit MPRISMetadata
  playback_status : Except Unit String
  has_get_shuffle : Bool
  shuffle : Except Unit PyVal
  has_get_loop_status : Bool
  loop_status : Except Unit String
deriving DecidableEq, Repr

/-- Embedding of `MPRISController._get_media_playback_state` (lines 96-137): with no
player interface, return the default sentinel; otherwise read metadata,
status, shuffle and loop status from the player, and on any exception return
the default sentinel (the body is wrapped in `try/except`). -/
def MPRISController._get_media_playback_state
    (iface : Option MPRISIfaceData) : MediaPlaybackStateInner :=
  match iface with
  | none => default_media_playback_state
  | some p =>
    let attempt : Except Unit MediaPlaybackStateInner := do
      let md ← p.metadata
      let ps ← p.playback_status
      let sh : Option PyVal ←
        if p.has_get_shuffle then do
          let v ← p.shuffle
          pure (some v)
        else pure none
      let ls : Option String ←
        if p.has_get_loop_status then do
          let v ← p.loop_status
          pure (some v)
        else pure none
      let artists : PyVal :=
        match md.artist with
        | some l => if l.isEmpty then .vnone else .vstr (String.intercalate (", ") l)
        | none => .vnone
      let shuffleVar : PyVal := sh.getD .vnone
      pure
        { artist := artists
          subtitle := (md.album.map PyVal.vstr).getD .vnone
          title := (md.title.map PyVal.vstr).getD .vnone
          is_shuffle_active :=
            if shuffleVar = .vnone then .vnone else .vbool (pyTruthy shuffleVar)
          auto_repeat_mode :=
            match ls with
            | some s => .vbool (s == "Track")
            | none => .vnone
          playback_status := .vstr ps }
    match attempt with
    | .ok s => s
    | .error _ => default_media_playback_state

/-- The controller state stored on the `MPRISController` instance: the bus
name of the chosen player interface (`_player_iface`), the dedup cache
(`_last_state`) and the stop flag (`_stop_event`). -/
structure MPRISState where
  _player_iface : Option String
  _last_state : Option MediaPlaybackStateInner
  _stop_event : Bool
deriving DecidableEq, Repr

/-- An observable effect of one poll iteration, in program order. -/
inductive PollEvent where
  | setCache (s : MediaPlaybackStateInner)
  | invokeCallback (s : MediaPlaybackStateInner)
deriving DecidableEq, Repr

/-- Embedding of `MPRISController._poll` (lines 81-94): skip when no player interface is
chosen; otherwise read the state, and when it compares `!=` to the cache,
assign the cache (line 88) and then invoke the registered callback (line 90).
`answers` are the platform answers the stored interface handle gives this
iteration, `cbSet` models `on_media_playback_info_changed is not None`, and
`cbRaises` models the callback raising: the surrounding `try/except`
swallows it, so it changes nothing the function returns. -/
def MPRISController._poll (st : MPRISState) (answers : MPRISIfaceData)
    (cbSet : Bool) (_cbRaises : Bool) : MPRISState × List PollEvent :=
  match st._player_iface with
  | none => (st, [])
  | some _ =>
    let s := MPRISController._get_media_playback_state (some answers)
    if pyEqOptState st._last_state s then (st, [])
    else
      ({ st with _last_state := some s },
        .setCache s :: (if cbSet then [.invokeCallback s] else []))

/-- The D-Bus environment `_init_player` talks to: the bus connection, the
`ListNames` call, and per bus name the combined
introspect/proxy/`get_interface` step and the `PlaybackStatus` read. -/
structure MPRISEnv where
  connect : Except Unit Unit
  list_names : Except Unit (List String)
  introspect_iface : String → Except Unit Unit
  get_playback_status : String → Except Unit String

/-- Python `name.startswith(p)`: `p` is a character-wise prefix of `name`. -/
def pyStartsWith (name p : String) : Bool :=
  p.data.isPrefixOf name.data

/-- One candidate probe inside the discovery loop (lines 55-59 of
`MPRISController.py`): introspect the name, build the proxy interface, then
read its `PlaybackStatus`. -/
def MPRISController.probe (env : MPRISEnv) (name : String) : Except Unit String := do
  let _ ← env.introspect_iface name
  env.get_playback_status name

/-- Whether a candidate's probe succeeded with status `"Playing"`; a raising
probe is caught by the `except` on line 64 and the loop continues. -/
def MPRISController.probeIsPlaying (env : MPRISEnv) (name : String) : Bool :=
  match MPRISController.probe env name with
  | .ok s => s == "Playing"
  | .error _ => false

/-- The discovery loop of `_init_player` (lines 53-67): the first enumerated
name whose probe succeeds with status `"Playing"`; failing or non-playing
candidates are skipped. -/
def MPRISController.scanPlaying (env : MPRISEnv) : List String → Option String
  | [] => none
  | n :: rest =>
    if MPRISController.probeIsPlaying env n then some n
    else MPRISController.scanPlaying env rest

/-- Embedding of `MPRISController._init_player` (lines 44-73): connect to the bus, list
names, filter MPRIS names, scan for the first playing player; otherwise fall
back to the first enumerated name, whose introspection (lines 71-73) is not
guarded by any `try/except`; with no MPRIS names, leave the interface unset.
Returns the bus name stored in `_player_iface`, or `.error` when an uncaught
exception escapes. -/
def MPRISController._init_player (env : MPRISEnv) : Except Unit (Option String) := do
  let _ ← env.connect
  let names ← env.list_names
  let mpris_names := names.filter (fun n => pyStartsWith n ("org.mpris.MediaPlayer2."))
  match MPRISController.scanPlaying env mpris_names with
  | some n => pure (some n)
  | none =>
    match mpris_names with
    | [] => pure none
    | n :: _ => do
      let _ ← env.introspect_iface n
      pure (some n)

/-- The inputs of one poll iteration: the platform's answers to the stored
interface handle, whether a callback is registered, and whether it raises. -/
structure MPRISPollInput where
  answers : MPRISIfaceData
  cbSet : Bool
  cbRaises : Bool
deriving DecidableEq, Repr

/-- One iteration of the `while` loop in `_run`: run `_poll` on the current
controller state and record the iteration's emitted events. -/
def MPRISController.runStep (acc : MPRISState × List (List PollEvent))
    (inp : MPRISPollInput) : MPRISState × List (List PollEvent) :=
  let step := MPRISController._poll acc.1 inp.answers inp.cbSet inp.cbRaises
  (step.1, acc.2 ++ [step.2])

/-- Embedding of `MPRISController._run` (lines 37-42): run `_init_player` to completion —
an exception it raises escapes `run_until_complete` and kills the poll
thread before the loop starts (`.error`) — then poll once per interval until
the stop flag is observed.  `polls` lists the iterations executed before the
stop flag is seen; the result pairs the final controller state with each
iteration's emitted events. -/
def MPRISController._run (env : MPRISEnv) (polls : List MPRISPollInput) :
    Except Unit (MPRISState × List (List PollEvent)) := do
  let iface ← MPRISController._init_player env
  let start : MPRISState :=
    { _player_iface := iface, _last_state := none, _stop_event := false }
  pure (polls.foldl MPRISController.runStep (start, []))

/-- A transport command handed off to the worker loop
(`_run_coroutine_in_loop`, fire-and-forget). -/
inductive MPRISCmd where
  | play
  | pause
  | stop
  | prev
  | next
deriving DecidableEq, Repr

/-- Embedding of `MPRISController.play` (lines 149-153): if an interface is chosen,
enqueue the command on the worker loop and return `true` without awaiting
it; otherwise return `false`.  The controller state is untouched. -/
def MPRISController.play (st : MPRISState) : MPRISState × Bool × List MPRISCmd :=
  if st._player_iface.isSome then (st, true, [.play]) else (st, false, [])

/-- Embedding of `MPRISController.pause` (lines 155-159). -/
def MPRISController.pause (st : MPRISState) : MPRISState × Bool × List MPRISCmd :=
  if st._player_iface.isSome then (st, true, [.pause]) else (st, false, [])

/-- Embedding of `MPRISController.stop` (lines 161-165). -/
def MPRISController.stop (st : MPRISState) : MPRISState × Bool × List MPRISCmd :=
  if st._player_iface.isSome then (st, true, [.stop]) else (st, false, [])

/-- Embedding of `MPRISController.prev_track` (lines 167-171). -/
def MPRISController.prev_track (st : MPRISState) : MPRISState × Bool × List MPRISCmd :=
  if st._player_iface.isSome then (st, true, [.prev]) else (st, false, [])

/-- Embedding of `MPRISController.next_track` (lines 173-177). -/
def MPRISController.next_track (st : MPRISState) : MPRISState × Bool × List MPRISCmd :=
  if st._player_iface.isSome then (st, true, [.next]) else (st, false, [])

/-- Embedding of `MPRISController.get_media_playback_state` (lines 179-180):
`self._last_state or default_media_playback_state()`.  A cached state is a
six-key dict, which is always truthy, so Python `or` returns the cache when
one exists and the default sentinel otherwise; no platform call is made. -/
def MPRISController.get_media_playback_state (st : MPRISState) :
    MediaPlaybackStateInner :=
  st._last_state.getD default_media_playback_state

/-- Embedding of `MPRISController.cleanup` (lines 182-185): set the stop flag, join the
poll thread with a 2-second bound, stop the loop.  Setting an already-set
flag, joining a finished thread and stopping a stopped loop are all no-ops,
so the state effect is setting the flag. -/
def MPRISController.cleanup (st : MPRISState) : MPRISState :=
  { st with _stop_event := true }

/-! ## Windows adapter (`MediaControllers.py`, class `WindowsMediaController`)

The winrt platform boundary is modelled by records of the answers a session
handle gives; a raising call is an `Except.error` and — unlike in the MPRIS
adapter — nothing in `get_wmsa_state` catches it. -/

/-- The `GlobalSystemMediaTransportControlsSessionPlaybackInfo` surface read
by `get_wmsa_state`: `has_*` model the `hasattr` probes; the winrt
projection types `is_shuffle_active` as `bool | None` and
`auto_repeat_mode` as `MediaPlaybackAutoRepeatMode | None`;
`playback_status_name` is the `.name` of the status enum member. -/
structure WinPlaybackInfo where
  has_is_shuffle_active : Bool
  is_shuffle_active : Option Bool
  has_auto_repeat_mode : Bool
  auto_repeat_mode : Option WinRepeatMode
  has_playback_status : Bool
  playback_status_name : String
deriving DecidableEq, Repr

/-- The media properties returned by `try_get_media_properties_async`. -/
structure WinMediaProps where
  artist : String
  subtitle : String
  title : String
deriving DecidableEq, Repr

/-- A `GlobalSystemMediaTransportControlsSession` handle as `get_wmsa_state`
uses it: what `get_playback_info()` and
`try_get_media_properties_async` answer (either can raise, e.g. when
the session has vanished). -/
structure WinSession where
  get_playback_info : Except Unit WinPlaybackInfo
  try_get_media_properties : Except Unit (Option WinMediaProps)
deriving DecidableEq, Repr

/-- Embedding of `WindowsMediaController.get_wmsa_state` (`MediaControllers.py` lines
173-196): default sentinel when `current_session` is `None` or the media
properties come back `None`; otherwise build the state with Python
`x or False` normalization of shuffle and repeat.  There is no `try/except`
in this method, so an exception from either platform call propagates. -/
def WindowsMediaController.get_wmsa_state (session : Option WinSession) :
    Except Unit MediaPlaybackStateInner :=
  match session with
  | none => .ok default_media_playback_state
  | some s => do
    let pi ← s.get_playback_info
    let mp ← s.try_get_media_properties
    match mp with
    | none => pure default_media_playback_state
    | some p =>
      pure
        { artist := .vstr p.artist
          subtitle := .vstr p.subtitle
          title := .vstr p.title
          is_shuffle_active :=
            if pi.has_is_shuffle_active then .vbool (pi.is_shuffle_active.getD false)
            else .vbool false
          auto_repeat_mode :=
            if pi.has_auto_repeat_mode then
              match pi.auto_repeat_mode with
              | none => .vbool false
              | some .none_ => .vbool false
              | some m => .venum m
            else .vbool false
          playback_status :=
            if pi.has_playback_status then .vstr pi.playback_status_name else .vnone }

/-- The instance state of `WindowsMediaController`.
`last_media_playback_state = none` models the initial class-level value: the
attribute is assigned `field(default_factory=...)` outside a dataclass, so
until the first handler run it holds a stray `dataclasses.Field` object,
which compares unequal to every state dict. -/
structure WindowsState where
  current_session : Option WinSession
  playback_info_changed_token : Option Nat
  current_session_changed_token : Option Nat
  last_media_playback_state : Option MediaPlaybackStateInner
deriving DecidableEq, Repr

/-- Embedding of `WindowsMediaController.playback_info_changed_handler` (lines 161-171):
read the live state, compare `==` with the cache, and when different assign
the cache (line 168) and then invoke the registered callback (line 171).  An
exception from `get_wmsa_state` propagates out of the handler. -/
def WindowsMediaController.playback_info_changed_handler
    (st : WindowsState) (cbSet : Bool) :
    Except Unit (WindowsState × List PollEvent) := do
  let state ← WindowsMediaController.get_wmsa_state st.current_session
  if pyEqOptState st.last_media_playback_state state then pure (st, [])
  else
    pure ({ st with last_media_playback_state := some state },
      .setCache state :: (if cbSet then [.invokeCallback state] else []))

/-- Embedding of `WindowsMediaController.get_media_playback_state` (lines 104-105):
`return self.get_wmsa_state()` — a fresh synchronous platform read; the
cached `last_media_playback_state` is not consulted. -/
def WindowsMediaController.get_media_playback_state (st : WindowsState) :
    Except Unit MediaPlaybackStateInner :=
  WindowsMediaController.get_wmsa_state st.current_session

/-- Embedding of `WindowsMediaController.cleanup` (lines 108-116): when a playback-info
token is registered, remove it from `self.current_session` (guarded by a
`None` check) and then, unconditionally, from
`self.media_session_manager.get_current_session()` — when the manager has no
current session that expression is `None.remove_playback_info_changed(...)`
and raises `AttributeError` before either token is cleared.  Otherwise clear
both tokens. -/
def WindowsMediaController.cleanup (st : WindowsState) (mgrHasCurrent : Bool) :
    Except Unit WindowsState :=
  match st.playback_info_changed_token with
  | some _ =>
    if mgrHasCurrent then
      pure { st with playback_info_changed_token := none,
                     current_session_changed_token := none }
    else .error ()
  | none => pure { st with current_session_changed_token := none }

/-- A session handle as the transport commands use it: the results of the
`try_*_async` calls. -/
structure WinCmdSession where
  try_play : Except Unit Bool
  try_pause : Except Unit Bool
  try_stop : Except Unit Bool
  try_skip_next : Except Unit Bool
  try_skip_previous : Except Unit Bool
deriving DecidableEq, Repr

/-- Embedding of `WindowsMediaController.play` / `_inner_play` (lines 90, 118-119):
`await self.media_session_manager.get_current_session().try_play_async()` —
when the manager has no current session this dereferences `None` and raises
`AttributeError`; otherwise the platform's boolean answer is returned. -/
def WindowsMediaController.play (mgr_current : Option WinCmdSession) :
    Except Unit Bool :=
  match mgr_current with
  | none => .error ()
  | some s => s.try_play

/-- Embedding of `WindowsMediaController.pause` / `_inner_pause` (lines 93, 121-122). -/
def WindowsMediaController.pause (mgr_current : Option WinCmdSession) :
    Except Unit Bool :=
  match mgr_current with
  | none => .error ()
  | some s => s.try_pause

/-- Embedding of `WindowsMediaController.prev_track` / `_inner_prev_track`
(lines 99, 124-125). -/
def WindowsMediaController.prev_track (mgr_current : Option WinCmdSession) :
    Except Unit Bool :=
  match mgr_current with
  | none => .error ()
  | some s => s.try_skip_previous

/-- Embedding of `WindowsMediaController.next_track` / `_inner_next_track`
(lines 102, 127-128). -/
def WindowsMediaController.next_track (mgr_current : Option WinCmdSession) :
    Except Unit Bool :=
  match mgr_current with
  | none => .error ()
  | some s => s.try_skip_next

/-- Embedding of `WindowsMediaController.stop` / `_inner_stop` (lines 96, 130-134): try
stop, and only when it succeeds try pause; the composed result is returned. -/
def WindowsMediaController.stop (mgr_current : Option WinCmdSession) :
    Except Unit Bool :=
  match mgr_current with
  | none => .error ()
  | some s => do
    let r ← s.try_stop
    if r then s.try_pause else pure false

/-! ## Concrete fixtures used by the theorems below -/

/-- A player interface whose reads all succeed. -/
def okIface : MPRISIfaceData :=
  { metadata := .ok { artist := some [("a")], album := some ("b"), title := some ("t") }
    playback_status := .ok ("Playing")
    has_get_shuffle := true
    shuffle := .ok (.vbool true)
    has_get_loop_status := true
    loop_status := .ok ("Track") }

/-- A player interface whose reads all raise. -/
def errIface : MPRISIfaceData :=
  { metadata := .error ()
    playback_status := .error ()
    has_get_shuffle := true
    shuffle := .error ()
    has_get_loop_status := true
    loop_status := .error () }

/-- A bus with a single MPRIS name whose introspection always raises. -/
def envFallbackFail : MPRISEnv :=
  { connect := .ok ()
    list_names := .ok [("org.mpris.MediaPlayer2.vlc")]
    introspect_iface := fun _ => .error ()
    get_playback_status := fun _ => .error () }

/-- A bus whose connection attempt raises. -/
def envConnectFail : MPRISEnv :=
  { connect := .error ()
    list_names := .ok []
    introspect_iface := fun _ => .ok ()
    get_playback_status := fun _ => .ok ("Paused") }

/-- A healthy bus with one playing MPRIS player. -/
def envGood : MPRISEnv :=
  { connect := .ok ()
    list_names := .ok [("org.mpris.MediaPlayer2.vlc")]
    introspect_iface := fun _ => .ok ()
    get_playback_status := fun _ => .ok ("Playing") }

/-- One benign poll iteration input. -/
def pollInput0 : MPRISPollInput :=
  { answers := okIface, cbSet := true, cbRaises := false }

/-- An MPRIS controller state with a chosen player and an empty cache. -/
def mprisSt0 : MPRISState :=
  { _player_iface := some ("org.mpris.MediaPlayer2.vlc")
    _last_state := none
    _stop_event := false }

/-- A Windows session whose platform reads raise (e.g. it vanished). -/
def vanishedSession : WinSession :=
  { get_playback_info := .error (), try_get_media_properties := .error () }

/-- A readable Windows session whose repeat mode is scoped to the playlist
(`MediaPlaybackAutoRepeatMode.LIST`). -/
def repeatListSession : WinSession :=
  { get_playback_info := .ok
      { has_is_shuffle_active := true
        is_shuffle_active := some false
        has_auto_repeat_mode := true
        auto_repeat_mode := some .list
        has_playback_status := true
        playback_status_name := "PLAYING" }
    try_get_media_properties := .ok (some { artist := "a", subtitle := "b", title := "t" }) }

/-- A readable Windows session that does not expose a shuffle property. -/
def noShuffleSession : WinSession :=
  { get_playback_info := .ok
      { has_is_shuffle_active := false
        is_shuffle_active := none
        has_auto_repeat_mode := false
        auto_repeat_mode := none
        has_playback_status := true
        playback_status_name := "PAUSED" }
    try_get_media_properties := .ok (some { artist := "a", subtitle := "b", title := "t" }) }

/-- A non-default playback state, to populate a cache. -/
def cachedSample : MediaPlaybackStateInner :=
  { artist := .vnone
    subtitle := .vnone
    title := .vstr ("t")
    is_shuffle_active := .vbool false
    auto_repeat_mode := .vbool false
    playback_status := .vnone }

/-- A Windows controller with no live session but a populated cache. -/
def winStCached : WindowsState :=
  { current_session := none
    playback_info_changed_token := none
    current_session_changed_token := none
    last_media_playback_state := some cachedSample }

/-- A Windows controller with a registered playback-info token whose session
has since vanished from the manager. -/
def winStToken : WindowsState :=
  { current_session := none
    playback_info_changed_token := some 1
    current_session_changed_token := some 2
    last_media_playback_state := none }

/-- A freshly constructed Windows controller with no session. -/
def winSt0 : WindowsState :=
  { current_session := none
    playback_info_changed_token := none
    current_session_changed_token := none
    last_media_playback_state := none }

/-- The state `okIface` normalizes to. -/
def okIfaceState : MediaPlaybackStateInner :=
  { artist := .vstr ("a")
    subtitle := .vstr ("b")
    title := .vstr ("t")
    is_shuffle_active := .vbool true
    auto_repeat_mode := .vbool true
    playback_status := .vstr ("Playing") }

/-- The controller state after `_run envGood [pollInput0]`. -/
def finSt0 : MPRISState :=
  { _player_iface := some ("org.mpris.MediaPlayer2.vlc")
    _last_state := some okIfaceState
    _stop_event := false }

/-- The per-iteration event trace of `_run envGood [pollInput0]`. -/
def traces0 : List (List PollEvent) :=
  [[.setCache okIfaceState, .invokeCallback okIfaceState]]

/-- A poll iteration whose platform reads all raise and whose callback
raises. -/
def errPollInput : MPRISPollInput :=
  { answers := errIface, cbSet := true, cbRaises := true }

/-! ## Theorems -/

set_option maxRecDepth 8192

/-- C2: reading the playback state with no current session yields the
default sentinel in both adapters, and the MPRIS adapter also returns the
default sentinel (without raising) when every property read raises; but the
Windows adapter, contrary to the claim, propagates a platform exception from
`get_wmsa_state` when the session handle's reads raise (vanished session /
unreadable properties), because the method has no `try/except`. -/
theorem c2_read_default_and_windows_raise :
    MPRISController._get_media_playback_state none = default_media_playback_state
    ∧ MPRISController._get_media_playback_state (some errIface)
        = default_media_playback_state
    ∧ WindowsMediaController.get_wmsa_state none = .ok default_media_playback_state
    ∧ WindowsMediaController.get_wmsa_state (some vanishedSession) = .error () := by
  refine ⟨rfl, rfl, rfl, rfl⟩

/-- C4: counterexample — the Windows controller's `get_media_playback_state`
does not return the cached last reconciled state: with a populated cache and
no live session it performs a fresh platform read and returns the default
sentinel, not the cached state. -/
theorem c4_counterexample :
    WindowsMediaController.get_media_playback_state winStCached
        = .ok default_media_playback_state
    ∧ winStCached.last_media_playback_state = some cachedSample
    ∧ default_media_playback_state ≠ cachedSample := by
  refine ⟨rfl, rfl, by decide⟩

/-- C5: counterexample — the Windows `play` operation on an adapter with no
current session raises (`None.try_play_async()` is an `AttributeError`)
instead of returning the boolean `false` the claim requires. -/
theorem c5_counterexample :
    WindowsMediaController.play none = .error ()
    ∧ WindowsMediaController.play none ≠ .ok false := by
  refine ⟨rfl, by decide⟩

/-- C7: counterexample — on a successful Windows read of a session whose
repeat scope is `List` (a present, non-`Track` scope), the normalized
`auto_repeat_mode` field holds the raw platform enum member, which is
neither the boolean `false` the claim requires nor `true`. -/
theorem c7_counterexample :
    (WindowsMediaController.get_wmsa_state (some repeatListSession)).map
        (fun s => s.auto_repeat_mode) = .ok (.venum .list)
    ∧ PyVal.venum .list ≠ .vbool false
    ∧ PyVal.venum .list ≠ .vbool true := by
  refine ⟨rfl, by decide, by decide⟩

/-- C8: counterexample — on a successful Windows read of a session that does
not expose a shuffle property, the normalized `is_shuffle_active` field is
`false`, not the `none` the claim requires. -/
theorem c8_counterexample :
    (WindowsMediaController.get_wmsa_state (some noShuffleSession)).map
        (fun s => s.is_shuffle_active) = .ok (.vbool false)
    ∧ PyVal.vbool false ≠ .vnone := by
  refine ⟨rfl, by decide⟩

/-- C9: the MPRIS `cleanup` is total and idempotent, and a Windows `cleanup`
on a controller whose resources are already released is a no-op success; but
contrary to the claim, a first `cleanup` call on a Windows controller whose
playback-info token is registered while the manager no longer has a current
session raises (`None.remove_playback_info_changed`) — the code dereferences
`None` on the unguarded line 112 of `MediaControllers.py`. -/
theorem c9_cleanup_eval :
    WindowsMediaController.cleanup winStToken false = .error ()
    ∧ (∀ st : MPRISState,
        MPRISController.cleanup (MPRISController.cleanup st)
          = MPRISController.cleanup st)
    ∧ (∀ (st : WindowsState) (b : Bool),
        WindowsMediaController.cleanup
            { st with playback_info_changed_token := none,
                      current_session_changed_token := none } b
          = .ok { st with playback_info_changed_token := none,
                          current_session_changed_token := none }) := by
  refine ⟨rfl, fun st => rfl, fun st b => rfl⟩

/-- C3: counterexample — with a single enumerated MPRIS name whose
introspection always raises, the scan skips it, but the unguarded fallback
introspection (lines 71-73 of `MPRISController.py`) re-introspects that same
session and its failure escapes `_init_player` as an exception: an
individual session's introspection failure aborts discovery of the
fallback. -/
theorem c3_counterexample :
    MPRISController._init_player envFallbackFail = .error () := by
  decide

/-- C6: counterexample — a failure during initial session discovery (here a
bus connection failure) escapes `_init_player`, and `_run` has no handler
for it: the poll thread dies and the loop never executes the pending
iteration, instead of polling until the stop flag is set. -/
theorem c6_counterexample :
    MPRISController._run envConnectFail [pollInput0] = .error () := by
  rfl

/-- C1: in both controllers, with a callback registered, one reconciliation
step invokes the callback exactly when the newly observed state compares
unequal to the cached state; the payload is the new state; the cache is
assigned strictly before the callback runs (event order); and when the new
state equals the cache, neither the cache nor the callback fires. -/
theorem c1_callback_dedup_and_order
    (st : MPRISState) (answers : MPRISIfaceData) (cbRaises : Bool)
    (wst : WindowsState) :
    (st._player_iface = none →
      MPRISController._poll st answers true cbRaises = (st, []))
    ∧ (st._player_iface.isSome = true →
        (pyEqOptState st._last_state
            (MPRISController._get_media_playback_state (some answers)) = false →
          MPRISController._poll st answers true cbRaises =
            ({ st with
                _last_state :=
                  some (MPRISController._get_media_playback_state (some answers)) },
             [.setCache (MPRISController._get_media_playback_state (some answers)),
              .invokeCallback (MPRISController._get_media_playback_state (some answers))]))
        ∧ (pyEqOptState st._last_state
              (MPRISController._get_media_playback_state (some answers)) = true →
            MPRISController._poll st answers true cbRaises = (st, [])))
    ∧ (∀ s : MediaPlaybackStateInner,
        WindowsMediaController.get_wmsa_state wst.current_session = .ok s →
          (pyEqOptState wst.last_media_playback_state s = false →
            WindowsMediaController.playback_info_changed_handler wst true =
              .ok ({ wst with last_media_playback_state := some s },
                   [.setCache s, .invokeCallback s]))
          ∧ (pyEqOptState wst.last_media_playback_state s = true →
              WindowsMediaController.playback_info_changed_handler wst true =
                .ok (wst, []))) := by
  refine ⟨?_, ?_, ?_⟩
  · intro h
    simp [MPRISController._poll, h]
  · intro h
    obtain ⟨v, hv⟩ := Option.isSome_iff_exists.mp h
    refine ⟨?_, ?_⟩
    · intro hne
      simp [MPRISController._poll, hv, hne]
    · intro heq
      simp [MPRISController._poll, hv, heq]
  · intro s hs
    refine ⟨?_, ?_⟩
    · intro hne
      simp [WindowsMediaController.playback_info_changed_handler, hs, hne,
        Bind.bind, Except.bind, Pure.pure, Except.pure]
    · intro heq
      simp [WindowsMediaController.playback_info_changed_handler, hs, heq,
        Bind.bind, Except.bind, Pure.pure, Except.pure]

/-- Witness for C1: on a fresh MPRIS controller with a chosen player, one
poll against `okIface` assigns the cache and then fires the callback with
the new state; on a fresh Windows controller with no session, the handler
caches and fires the default sentinel (the initial cache placeholder never
equals a state). -/
theorem c1_witness :
    MPRISController._poll mprisSt0 okIface true false =
      ({ mprisSt0 with
          _last_state :=
            some (MPRISController._get_media_playback_state (some okIface)) },
       [.setCache (MPRISController._get_media_playback_state (some okIface)),
        .invokeCallback (MPRISController._get_media_playback_state (some okIface))])
    ∧ WindowsMediaController.playback_info_changed_handler winSt0 true =
        .ok ({ winSt0 with
                 last_media_playback_state := some default_media_playback_state },
             [.setCache default_media_playback_state,
              .invokeCallback default_media_playback_state]) := by
  refine ⟨?_, ?_⟩
  · exact ((c1_callback_dedup_and_order mprisSt0 okIface false winSt0).2.1
      (by decide)).1 (by decide)
  · exact ((c1_callback_dedup_and_order mprisSt0 okIface false winSt0).2.2
      default_media_playback_state (by decide)).1 (by decide)

/-- One poll iteration never touches `_player_iface`. -/
theorem poll_preserves_player_iface (st : MPRISState) (answers : MPRISIfaceData)
    (cbSet cbRaises : Bool) :
    (MPRISController._poll st answers cbSet cbRaises).1._player_iface
      = st._player_iface := by
  cases hv : st._player_iface with
  | none => simp [MPRISController._poll, hv]
  | some v =>
    simp only [MPRISController._poll, hv]
    split
    · exact hv
    · simp [hv]

/-- Folding the loop body preserves `_player_iface`. -/
theorem foldl_runStep_player_iface (polls : List MPRISPollInput) :
    ∀ acc : MPRISState × List (List PollEvent),
      (polls.foldl MPRISController.runStep acc).1._player_iface
        = acc.1._player_iface := by
  induction polls with
  | nil => intro acc; rfl
  | cons p ps ih =>
    intro acc
    rw [List.foldl_cons, ih]
    exact poll_preserves_player_iface acc.1 p.answers p.cbSet p.cbRaises

/-- Folding the loop body always appends exactly one event list per
iteration. -/
theorem foldl_runStep_length (polls : List MPRISPollInput) :
    ∀ acc : MPRISState × List (List PollEvent),
      (polls.foldl MPRISController.runStep acc).2.length
        = acc.2.length + polls.length := by
  induction polls with
  | nil => intro acc; simp
  | cons p ps ih =>
    intro acc
    rw [List.foldl_cons, ih]
    simp [MPRISController.runStep]
    omega

/-- C10: the chosen player interface is never reassigned after discovery —
a poll iteration, each control operation and the state query leave the
controller state's `_player_iface` (indeed, for the operations, the whole
state) unchanged; over a whole run, the final `_player_iface` is exactly
what `_init_player` returned, so discovery runs once and a player appearing
later is never picked up; and once the chosen player's reads fail (it
vanished), every read degrades to the default sentinel. -/
theorem c10_player_iface_frozen
    (st : MPRISState) (answers : MPRISIfaceData) (cbSet cbRaises : Bool)
    (env : MPRISEnv) (polls : List MPRISPollInput) :
    (MPRISController._poll st answers cbSet cbRaises).1._player_iface
        = st._player_iface
    ∧ (MPRISController.play st).1 = st
    ∧ (MPRISController.pause st).1 = st
    ∧ (MPRISController.stop st).1 = st
    ∧ (MPRISController.prev_track st).1 = st
    ∧ (MPRISController.next_track st).1 = st
    ∧ (∀ (ifa : Option String) (fin : MPRISState) (traces : List (List PollEvent)),
        MPRISController._init_player env = .ok ifa →
        MPRISController._run env polls = .ok (fin, traces) →
        fin._player_iface = ifa)
    ∧ (answers.metadata = .error () →
        MPRISController._get_media_playback_state (some answers)
          = default_media_playback_state) := by
  refine ⟨poll_preserves_player_iface st answers cbSet cbRaises,
    ?_, ?_, ?_, ?_, ?_, ?_, ?_⟩
  · unfold MPRISController.play; split <;> rfl
  · unfold MPRISController.pause; split <;> rfl
  · unfold MPRISController.stop; split <;> rfl
  · unfold MPRISController.prev_track; split <;> rfl
  · unfold MPRISController.next_track; split <;> rfl
  · intro ifa fin traces hinit hrun
    unfold MPRISController._run at hrun
    rw [hinit] at hrun
    simp [Bind.bind, Except.bind, Pure.pure, Except.pure] at hrun
    have hfst : (polls.foldl MPRISController.runStep
        ({ _player_iface := ifa, _last_state := none, _stop_event := false },
          [])).1 = fin := congrArg Prod.fst hrun
    rw [← hfst, foldl_runStep_player_iface]
  · intro hmd
    simp [MPRISController._get_media_playback_state, hmd, Bind.bind, Except.bind]

/-- Witness for C10: on the healthy bus `envGood` with one scheduled poll,
the final state's `_player_iface` is the discovered player, and a read
whose metadata call raises degrades to the default sentinel. -/
theorem c10_witness :
    finSt0._player_iface = some ("org.mpris.MediaPlayer2.vlc")
    ∧ MPRISController._get_media_playback_state (some errIface)
        = default_media_playback_state := by
  refine ⟨?_, ?_⟩
  · exact (c10_player_iface_frozen mprisSt0 okIface true false envGood
      [pollInput0]).2.2.2.2.2.2.1 (some ("org.mpris.MediaPlayer2.vlc")) finSt0
      traces0 (by decide) (by decide)
  · exact (c10_player_iface_frozen mprisSt0 errIface true false envGood
      [pollInput0]).2.2.2.2.2.2.2 (by decide)

/-- C6 (amended): once `_init_player` completes without an uncaught
exception, the loop executes every scheduled iteration — no error inside a
poll iteration (a failing platform read, which `_get_media_playback_state`
converts to the default state, or a raising callback, swallowed by the
`try/except` in `_poll`) ever shortens the iteration sequence. -/
theorem c6_loop_survives_poll_errors (env : MPRISEnv)
    (polls : List MPRISPollInput) (ifa : Option String)
    (hinit : MPRISController._init_player env = .ok ifa) :
    ∃ (fin : MPRISState) (traces : List (List PollEvent)),
      MPRISController._run env polls = .ok (fin, traces)
      ∧ traces.length = polls.length := by
  have hrun : MPRISController._run env polls =
      .ok (polls.foldl MPRISController.runStep
        ({ _player_iface := ifa, _last_state := none, _stop_event := false },
          [])) := by
    unfold MPRISController._run
    rw [hinit]
    rfl
  exact ⟨_, _, hrun, by rw [foldl_runStep_length polls]; simp⟩

/-- Witness for C6 (amended): on the healthy bus, a schedule containing an
iteration whose platform reads all raise and whose callback raises still
executes both iterations. -/
theorem c6_witness :
    ∃ (fin : MPRISState) (traces : List (List PollEvent)),
      MPRISController._run envGood [pollInput0, errPollInput] = .ok (fin, traces)
      ∧ traces.length = [pollInput0, errPollInput].length :=
  c6_loop_survives_poll_errors envGood [pollInput0, errPollInput]
    (some ("org.mpris.MediaPlayer2.vlc")) (by decide)

/-- The discovery scan is a first-match search for a successfully probed
playing player. -/
theorem scanPlaying_eq_find (env : MPRISEnv) (l : List String) :
    MPRISController.scanPlaying env l
      = l.find? (MPRISController.probeIsPlaying env) := by
  induction l with
  | nil => rfl
  | cons n rest ih =>
    rw [List.find?_cons]
    cases h : MPRISController.probeIsPlaying env n <;>
      simp [MPRISController.scanPlaying, h, ih]

/-- C3 (amended): on a bus whose connection and name listing succeed,
discovery selects the first enumerated MPRIS name whose probe (introspection
plus status read) succeeds with status `"Playing"` — failing or non-playing
probes are skipped and the scan continues; when no probe yields a playing
player, it falls back to the first enumerated MPRIS name, whose unguarded
introspection result is surfaced as-is (success selects it, failure escapes
discovery); with no MPRIS names it yields no session. -/
theorem c3_discovery_amended (names : List String)
    (intro : String → Except Unit Unit) (gps : String → Except Unit String) :
    MPRISController.scanPlaying ⟨.ok (), .ok names, intro, gps⟩
        (names.filter (fun n => pyStartsWith n ("org.mpris.MediaPlayer2.")))
      = (names.filter (fun n => pyStartsWith n ("org.mpris.MediaPlayer2."))).find?
          (MPRISController.probeIsPlaying ⟨.ok (), .ok names, intro, gps⟩)
    ∧ MPRISController._init_player ⟨.ok (), .ok names, intro, gps⟩
        = (match (names.filter (fun n => pyStartsWith n ("org.mpris.MediaPlayer2."))).find?
              (MPRISController.probeIsPlaying ⟨.ok (), .ok names, intro, gps⟩) with
           | some n => .ok (some n)
           | none =>
             match names.filter (fun n => pyStartsWith n ("org.mpris.MediaPlayer2.")) with
             | [] => .ok none
             | n :: _ => (intro n).map (fun _ => some n)) := by
  refine ⟨scanPlaying_eq_find _ _, ?_⟩
  unfold MPRISController._init_player
  simp only [Bind.bind, Except.bind, Pure.pure, Except.pure]
  rw [scanPlaying_eq_find]
  cases hf : (names.filter (fun n => pyStartsWith n ("org.mpris.MediaPlayer2."))).find?
      (MPRISController.probeIsPlaying ⟨.ok (), .ok names, intro, gps⟩) with
  | some n => rfl
  | none =>
    cases hm : names.filter (fun n => pyStartsWith n ("org.mpris.MediaPlayer2.")) with
    | nil => rfl
    | cons n rest =>
      cases hi : intro n <;>
        simp [Bind.bind, Except.bind, Pure.pure, Except.pure, Except.map, hi]

/-- C4 (amended): the MPRIS controller's state query returns the cached last
reconciled state — the default sentinel when none has been observed — purely
from the cache, with no platform interaction and no state change; the
Windows controller's state query instead performs a fresh platform read
(`get_wmsa_state`), whose result is independent of the cached
`last_media_playback_state` and is the default sentinel when there is no
current session. -/
theorem c4_query_amended (st : MPRISState) (s : MediaPlaybackStateInner)
    (wst : WindowsState) (c1 c2 : Option MediaPlaybackStateInner) :
    MPRISController.get_media_playback_state { st with _last_state := some s } = s
    ∧ MPRISController.get_media_playback_state { st with _last_state := none }
        = default_media_playback_state
    ∧ WindowsMediaController.get_media_playback_state wst
        = WindowsMediaController.get_wmsa_state wst.current_session
    ∧ WindowsMediaController.get_media_playback_state
          { wst with last_media_playback_state := c1 }
        = WindowsMediaController.get_media_playback_state
            { wst with last_media_playback_state := c2 }
    ∧ WindowsMediaController.get_wmsa_state none = .ok default_media_playback_state := by
  exact ⟨rfl, rfl, rfl, rfl, rfl⟩

/-- C5 (amended): every MPRIS control operation is total, leaves the state
unchanged and returns a boolean — `false` with no chosen session (and no
command dispatched), `true` otherwise with exactly the one command handed
off fire-and-forget, so a platform rejection is not reflected in the return
value; every Windows control operation surfaces the platform's boolean
answer (for `stop`: `try_stop`, then `try_pause` only on success, a failed
stop failing the whole operation) when the manager has a current session,
but raises when it has none. -/
theorem c5_controls_amended (st : MPRISState) (s : WinCmdSession) :
    MPRISController.play st
        = (st, st._player_iface.isSome,
            if st._player_iface.isSome then [MPRISCmd.play] else [])
    ∧ MPRISController.pause st
        = (st, st._player_iface.isSome,
            if st._player_iface.isSome then [MPRISCmd.pause] else [])
    ∧ MPRISController.stop st
        = (st, st._player_iface.isSome,
            if st._player_iface.isSome then [MPRISCmd.stop] else [])
    ∧ MPRISController.prev_track st
        = (st, st._player_iface.isSome,
            if st._player_iface.isSome then [MPRISCmd.prev] else [])
    ∧ MPRISController.next_track st
        = (st, st._player_iface.isSome,
            if st._player_iface.isSome then [MPRISCmd.next] else [])
    ∧ WindowsMediaController.play (some s) = s.try_play
    ∧ WindowsMediaController.pause (some s) = s.try_pause
    ∧ WindowsMediaController.prev_track (some s) = s.try_skip_previous
    ∧ WindowsMediaController.next_track (some s) = s.try_skip_next
    ∧ WindowsMediaController.stop (some { s with try_stop := .ok false }) = .ok false
    ∧ WindowsMediaController.stop (some { s with try_stop := .ok true }) = s.try_pause
    ∧ WindowsMediaController.stop (some { s with try_stop := .error () }) = .error ()
    ∧ WindowsMediaController.play none = .error () := by
  refine ⟨?_, ?_, ?_, ?_, ?_, rfl, rfl, rfl, rfl, rfl, ?_, rfl, rfl⟩
  · cases h : st._player_iface.isSome <;> simp [MPRISController.play, h]
  · cases h : st._player_iface.isSome <;> simp [MPRISController.pause, h]
  · cases h : st._player_iface.isSome <;> simp [MPRISController.stop, h]
  · cases h : st._player_iface.isSome <;> simp [MPRISController.prev_track, h]
  · cases h : st._player_iface.isSome <;> simp [MPRISController.next_track, h]
  · cases hp : s.try_pause <;>
      simp [WindowsMediaController.stop, Bind.bind, Except.bind, hp]

/-- C7 (amended): on a successful MPRIS read, a supported loop status
normalizes to the boolean `status == "Track"` (true exactly for scope
`Track`, false for any other scope string) and an unsupported
`get_loop_status` yields `none`; on a successful Windows read, an absent
`auto_repeat_mode` attribute, a `None` value and the scope-`None` enum
member all yield `false` (never `none`), while the `Track` and `List`
members are stored raw — the truthy operand of `x or False` — so the field
holds the platform enum, which under Python equality matches `True` for
`Track` and matches neither boolean for `List`. -/
theorem c7_repeat_normalization
    (md : MPRISMetadata) (ps lsv : String) (hasSh : Bool) (shv : PyVal)
    (pi : WinPlaybackInfo) (props : WinMediaProps) :
    (MPRISController._get_media_playback_state (some
        { metadata := .ok md, playback_status := .ok ps,
          has_get_shuffle := hasSh, shuffle := .ok shv,
          has_get_loop_status := true, loop_status := .ok lsv })).auto_repeat_mode
      = .vbool (lsv == "Track")
    ∧ (MPRISController._get_media_playback_state (some
        { metadata := .ok md, playback_status := .ok ps,
          has_get_shuffle := hasSh, shuffle := .ok shv,
          has_get_loop_status := false, loop_status := .ok lsv })).auto_repeat_mode
      = .vnone
    ∧ (WindowsMediaController.get_wmsa_state (some
        { get_playback_info := .ok { pi with has_auto_repeat_mode := false },
          try_get_media_properties := .ok (some props) })).map
        (fun s => s.auto_repeat_mode) = .ok (.vbool false)
    ∧ (WindowsMediaController.get_wmsa_state (some
        { get_playback_info := .ok
            { pi with has_auto_repeat_mode := true, auto_repeat_mode := none },
          try_get_media_properties := .ok (some props) })).map
        (fun s => s.auto_repeat_mode) = .ok (.vbool false)
    ∧ (WindowsMediaController.get_wmsa_state (some
        { get_playback_info := .ok
            { pi with has_auto_repeat_mode := true, auto_repeat_mode := some .none_ },
          try_get_media_properties := .ok (some props) })).map
        (fun s => s.auto_repeat_mode) = .ok (.vbool false)
    ∧ (WindowsMediaController.get_wmsa_state (some
        { get_playback_info := .ok
            { pi with has_auto_repeat_mode := true, auto_repeat_mode := some .track },
          try_get_media_properties := .ok (some props) })).map
        (fun s => s.auto_repeat_mode) = .ok (.venum .track)
    ∧ (WindowsMediaController.get_wmsa_state (some
        { get_playback_info := .ok
            { pi with has_auto_repeat_mode := true, auto_repeat_mode := some .list },
          try_get_media_properties := .ok (some props) })).map
        (fun s => s.auto_repeat_mode) = .ok (.venum .list)
    ∧ pyEq (.venum .track) (.vbool true) = true
    ∧ pyEq (.venum .list) (.vbool true) = false
    ∧ pyEq (.venum .list) (.vbool false) = false := by
  refine ⟨?_, ?_, rfl, rfl, rfl, rfl, rfl, rfl, rfl, rfl⟩
  · cases hasSh <;> rfl
  · cases hasSh <;> rfl

/-- C8 (amended): on a successful MPRIS read, a numeric shuffle value is
coerced by `bool()` — `1` to `true`, `0` to `false`, generally nonzero to
`true` — a boolean value passes through, and a player without `get_shuffle`
yields `none`; on a successful Windows read the field is always a boolean:
a supported property yields its value with `None` collapsed to `false`
(`x or False`), and an absent property yields `false`, never `none`. -/
theorem c8_shuffle_normalization
    (md : MPRISMetadata) (ps lsv : String) (hasLs : Bool) (n : Int) (b : Bool)
    (shv : PyVal) (pi : WinPlaybackInfo) (props : WinMediaProps)
    (ob : Option Bool) :
    (MPRISController._get_media_playback_state (some
        { metadata := .ok md, playback_status := .ok ps,
          has_get_shuffle := true, shuffle := .ok (.vint n),
          has_get_loop_status := hasLs, loop_status := .ok lsv })).is_shuffle_active
      = .vbool (n != 0)
    ∧ (MPRISController._get_media_playback_state (some
        { metadata := .ok md, playback_status := .ok ps,
          has_get_shuffle := true, shuffle := .ok (.vint 1),
          has_get_loop_status := hasLs, loop_status := .ok lsv })).is_shuffle_active
      = .vbool true
    ∧ (MPRISController._get_media_playback_state (some
        { metadata := .ok md, playback_status := .ok ps,
          has_get_shuffle := true, shuffle := .ok (.vint 0),
          has_get_loop_status := hasLs, loop_status := .ok lsv })).is_shuffle_active
      = .vbool false
    ∧ (MPRISController._get_media_playback_state (some
        { metadata := .ok md, playback_status := .ok ps,
          has_get_shuffle := true, shuffle := .ok (.vbool b),
          has_get_loop_status := hasLs, loop_status := .ok lsv })).is_shuffle_active
      = .vbool b
    ∧ (MPRISController._get_media_playback_state (some
        { metadata := .ok md, playback_status := .ok ps,
          has_get_shuffle := false, shuffle := .ok shv,
          has_get_loop_status := hasLs, loop_status := .ok lsv })).is_shuffle_active
      = .vnone
    ∧ (WindowsMediaController.get_wmsa_state (some
        { get_playback_info := .ok
            { pi with has_is_shuffle_active := true, is_shuffle_active := ob },
          try_get_media_properties := .ok (some props) })).map
        (fun s => s.is_shuffle_active) = .ok (.vbool (ob.getD false))
    ∧ (WindowsMediaController.get_wmsa_state (some
        { get_playback_info := .ok { pi with has_is_shuffle_active := false },
          try_get_media_properties := .ok (some props) })).map
        (fun s => s.is_shuffle_active) = .ok (.vbool false) := by
  refine ⟨?_, ?_, ?_, ?_, ?_, rfl, rfl⟩
  · cases hasLs <;> rfl
  · cases hasLs <;> rfl
  · cases hasLs <;> rfl
  · cases hasLs <;> rfl
  · cases hasLs <;> rfl

end MediaPlayer
